import Mathlib

/-!
Verification development for the Safe Link frontend (App.tsx, Community.tsx).

The TypeScript sources are shallowly embedded:
* JS numbers that only ever hold integers are `Int`; the one non-integer
  quantity (`confidence`) is `Rat`.
* JS regex tests in the sources are alternations of literal substrings with
  no anchors, so each is embedded as (case-insensitive where the regex has
  the `i` flag) substring containment.
* Effectful parts (crypto.randomUUID, Date) are explicit parameters; the
  Firebase store is explicit state in the reaction model at the end.
-/

namespace SafeLink

/-- `subAux pat hay`: `pat` occurs as a contiguous sublist of `hay`
(JS `String.prototype.includes` over char lists). -/
def subAux (pat : List Char) : List Char → Bool
  | [] => pat.isEmpty
  | c :: rest => pat.isPrefixOf (c :: rest) || subAux pat rest

/-- JS `s.includes(pat)` (case-sensitive substring containment). All string
operations in this development work on `String.data` with structural
recursion so that concrete inputs evaluate by kernel reduction. -/
def strHasSub (s pat : String) : Bool := subAux pat.data s.data

/-- ASCII lowercasing of a string as a char list (the inputs the sources
lowercase are ASCII URLs; JS `toLowerCase` agrees with `Char.toLower` there). -/
def lowerChars (s : String) : List Char := s.data.map Char.toLower

/-- JS `s.toLowerCase()`. -/
def strToLower (s : String) : String := ⟨lowerChars s⟩

/-- JS `s.startsWith(pre)`. -/
def strStartsWith (s pre : String) : Bool := pre.data.isPrefixOf s.data

/-- JS `s.split(sep)` for a single-character separator, over char lists. -/
def splitOnChar (sep : Char) : List Char → List (List Char)
  | [] => [[]]
  | c :: rest =>
    let r := splitOnChar sep rest
    if c == sep then [] :: r
    else
      match r with
      | [] => [[c]]
      | h :: t => (c :: h) :: t

/-- Case-insensitive match of a regex alternation of literal substrings
(`/(p1|p2|...)/i.test s`); the patterns supplied at call sites are lowercase. -/
def containsAnyCI (s : String) (pats : List String) : Bool :=
  pats.any (fun p => subAux p.data (lowerChars s))

/-- The allow-list `/google\.com|apple\.com|microsoft\.com|amazon\.com/i`
used by `scoreUrl`, `mockDomainAgeDays` and `isShortAndClean`. -/
def knownSafeList : List String := ["google.com", "apple.com", "microsoft.com", "amazon.com"]

/-- App.tsx `isProbablyShortener` (lines 126-128). -/
def isProbablyShortener (host : String) : Bool :=
  containsAnyCI host ["bit.ly", "tinyurl", "goo.gl", "t.co", "ow.ly", "buff.ly", "rb.gy", "short.ly", "is.gd"]

/-- App.tsx `hasUrgentKeywords` (lines 130-132). -/
def hasUrgentKeywords (text : String) : Bool :=
  containsAnyCI text
    ["verify", "reset", "update", "confirm", "secure", "account", "login",
     "unauthorized", "suspend", "password", "malware", "scam", "phish", "download", "virus"]

/-- App.tsx `mockDomainAgeDays` (lines 134-139); `async` with no awaited
effects, so embedded as a pure function. JS `includes` is case-sensitive. -/
def mockDomainAgeDays (host : String) : Int :=
  if containsAnyCI host knownSafeList then 365 * 10
  else if strHasSub host "new-" || strHasSub host "recent" || strHasSub host "young" then 12
  else if strHasSub host "old-" || strHasSub host "established" then 365 * 3
  else min (365 * 3) (max 10 ((host.data.length : Int) * 20))

/-- App.tsx `mockHasValidSsl` (lines 141-144); the regex here has no `i`
flag, so the containment test is case-sensitive. -/
def mockHasValidSsl (url : String) : Bool :=
  if strHasSub url "selfsigned" || strHasSub url "invalid-cert" || strHasSub url "testcert" then false
  else !(strStartsWith url "http://")

/-- App.tsx `mockIsBlacklisted` (lines 146-148). -/
def mockIsBlacklisted (host : String) : Bool :=
  containsAnyCI host ["badsite", "phish", "malicious", "malware-download"]

/-- App.tsx `mockHasExcessiveRedirects` (lines 150-152). The source calls
`parseHost(url).host` afresh; `parseHost` is deterministic, so the host is
passed in (every caller passes the host parsed from the same `url`). -/
def mockHasExcessiveRedirects (url host : String) : Bool :=
  containsAnyCI url ["redirect", "redir", "continue", "next=", "returnurl"] || isProbablyShortener host

/-- App.tsx `isShortAndClean` (lines 154-158). -/
def isShortAndClean (host : String) : Bool :=
  if containsAnyCI host knownSafeList then true
  else decide ((splitOnChar '.' host.data).length ≤ 3)
    && decide (host.data.length < 25) && !(strHasSub host "-")

/-- Hostname extraction of the platform WHATWG `URL` constructor, which is
browser code outside this repository: modelled for plain
`http(s)://host[/path]` inputs (lowercased authority up to the first
delimiter); other shapes are treated as parse failures, matching the
constructor throwing. -/
def urlHostname (s : String) : Option String :=
  let rest? : Option (List Char) :=
    if strStartsWith s "https://" then some (s.data.drop 8)
    else if strStartsWith s "http://" then some (s.data.drop 7)
    else none
  match rest? with
  | none => none
  | some rest =>
    let host := rest.takeWhile (fun c => !(c == '/' || c == '?' || c == '#' || c == ':'))
    if host.isEmpty then none else some ⟨host.map Char.toLower⟩

/-- App.tsx `parseHost` (lines 160-170), host component only (`scoreUrl`
destructures only `host`): normalize the scheme, try the URL parser, and on
failure fall back to splitting on the first slash. -/
def parseHostHost (raw : String) : String :=
  let normalized := if strStartsWith raw "http" then raw else "https://" ++ raw
  match urlHostname normalized with
  | some h => h
  | none => ⟨(splitOnChar '/' raw.data).headD []⟩

/-- App.tsx `clamp` (line 124) at integer type, with explicit bounds as used
at the `safety` call site `clamp(Math.round(score), 0, 10)`. -/
def clamp (v a b : Int) : Int := max a (min b v)

/-- App.tsx `clamp` (line 124) at rational type with its default bounds
`a = 0`, `b = 1e9`, as used at the `confidence` call site. -/
def clampQ (v : Rat) : Rat := max 0 (min 1000000000 v)

/-- App.tsx `type Tier` (line 16). -/
inductive Tier where
  | highRisk
  | beCareful
  | safe
deriving DecidableEq

/-- The sub-check records of the external API response
(`checks: mapping<string, {status, details, checked?}>`); only the fields
`didAllApisFail` inspects are modelled, `none` standing for an absent
(JS `undefined`) field. -/
structure SubCheck where
  checked : Option Bool
  status : Option String
deriving DecidableEq

/-- App.tsx `apiCheck` field shape (lines 45-50). -/
structure ApiCheck where
  done : Bool
  note : String
  checks : List (String × SubCheck)
  failed : Bool
deriving DecidableEq

/-- App.tsx reaction values of `userReaction` (line 40). -/
inductive Reaction where
  | like
  | dislike
deriving DecidableEq

/-- The per-check signed contributions that App.tsx `scoreUrl` assigns into
its `breakdown` object (lines 188-240); every run assigns exactly these
seven fields. -/
structure Breakdown where
  https : Int
  ssl : Int
  blacklisted : Int
  cleanDomain : Int
  suspiciousKeywords : Int
  domainAge : Int
  redirects : Int
deriving DecidableEq

/-- The key/value pairs of the `breakdown` object in JS property-insertion
order (the order `scoreUrl` first assigns each key). -/
def Breakdown.entries (b : Breakdown) : List (String × Int) :=
  [("https", b.https), ("ssl", b.ssl), ("blacklisted", b.blacklisted),
   ("cleanDomain", b.cleanDomain), ("suspiciousKeywords", b.suspiciousKeywords),
   ("domainAge", b.domainAge), ("redirects", b.redirects)]

/-- App.tsx `interface ScanResult` (lines 27-52), restricted to the fields
the scoring, reconciliation and ranking logic touch. `timestamp` is the
numeric time (`new Date(...).getTime()` of the stored display string);
`likes`/`dislikes` are optional in the interface (`none` = JS `undefined`). -/
structure ScanResult where
  id : String
  url : String
  safety : Int
  tier : Tier
  color : String
  confidence : Rat
  reasons : List String
  breakdown : Breakdown
  timestamp : Int
  likes : Option Int
  dislikes : Option Int
  userReaction : Option Reaction
  apiCheck : Option ApiCheck
deriving DecidableEq

/-- The `breakdown` object built by `scoreUrl` (App.tsx lines 188-240) as a
function of the seven branch conditions, in source order: HTTPS points,
SSL estimate, blacklist estimate, clean-domain shape, urgency keywords,
domain-age threshold, redirect signal. -/
def mkBreakdown (httpsOk sslOk blacklisted clean suspicious established hasRedirects : Bool) :
    Breakdown where
  https := if httpsOk then 2 else 0
  ssl := if sslOk then 2 else 0
  blacklisted := if blacklisted then -2 else 2
  cleanDomain := if clean then 1 else 0
  suspiciousKeywords := if suspicious then -1 else 1
  domainAge := if established then 1 else 0
  redirects := if hasRedirects then -1 else 1

/-- The running `score` accumulated by `scoreUrl`: each branch adds exactly
the value it stores in `breakdown`, so the total is the sum of the seven
contributions. -/
def scoreOf (b : Breakdown) : Int :=
  b.https + b.ssl + b.blacklisted + b.cleanDomain + b.suspiciousKeywords + b.domainAge + b.redirects

/-- App.tsx line 246: `Object.values(breakdown).filter(v => v > 0).reduce((a,b) => a+b, 0)`. -/
def positiveScore (b : Breakdown) : Int :=
  (((b.entries.map Prod.snd).filter (fun v => decide (0 < v))).foldl (· + ·) 0)

/-- The tier mapping as written in `scoreUrl` (App.tsx line 244). -/
def tierOfScore (safety : Int) : Tier :=
  if safety ≤ 3 then .highRisk else if safety ≤ 6 then .beCareful else .safe

/-- The color mapping as written in `scoreUrl` (App.tsx line 245). -/
def colorOfScore (safety : Int) : String :=
  if safety ≤ 3 then "#ef4444" else if safety ≤ 6 then "#f59e0b" else "#10b981"

/-- The tier mapping as written in `runExternalCheck` (App.tsx lines 459-462). -/
def tierOfRecon (finalSafety : Int) : Tier :=
  if finalSafety ≤ 3 then .highRisk else if finalSafety ≤ 6 then .beCareful else .safe

/-- The color mapping as written in `runExternalCheck` (App.tsx lines 464-467). -/
def colorOfRecon (finalSafety : Int) : String :=
  if finalSafety ≤ 3 then "#ef4444" else if finalSafety ≤ 6 then "#f59e0b" else "#10b981"

/-- The caution reasons pushed when `safety <= 6` (App.tsx lines 250-257),
in source order. -/
def cautionReasons (b : Breakdown) : List String :=
  (if b.blacklisted = -2 then ["Domain is flagged on threat lists."] else []) ++
  (if b.suspiciousKeywords = -1 then ["URL contains suspicious, urgent keywords."] else []) ++
  (if b.redirects = -1 then ["Excessive redirects or shortener detected."] else []) ++
  (if b.https = 0 then ["Missing HTTPS for a secure connection."] else []) ++
  (if b.ssl = 0 then ["Missing or invalid SSL Certificate."] else []) ++
  (if b.domainAge = 0 then ["Domain is less than 6 months old."] else [])

/-- The confirmation reasons pushed when the caution list is empty or
`safety > 6` (App.tsx lines 259-267), in source order. -/
def positiveReasons (b : Breakdown) : List String :=
  (if b.https = 2 then ["✔ Uses HTTPS for a secure connection."] else []) ++
  (if b.ssl = 2 then ["✔ Valid SSL Certificate detected."] else []) ++
  (if b.blacklisted = 2 then ["✔ Domain is not flagged on threat lists."] else []) ++
  (if b.cleanDomain = 1 then ["✔ Domain name is short and clean."] else []) ++
  (if b.suspiciousKeywords = 1 then ["✔ No suspicious keywords found."] else []) ++
  (if b.domainAge = 1 then ["✔ Domain is established (over 6 months old)."] else []) ++
  (if b.redirects = 1 then ["✔ No excessive redirects detected."] else [])

/-- The full `reasons` construction of `scoreUrl` (App.tsx lines 249-269):
cautions for `safety <= 6`, then confirmations when no reason was pushed yet
or `safety > 6`, then the fallback message when still empty. -/
def reasonsFor (b : Breakdown) (safety : Int) : List String :=
  let r0 := if safety ≤ 6 then cautionReasons b else []
  let r1 := if r0.length = 0 ∨ 6 < safety then r0 ++ positiveReasons b else r0
  if r1.length = 0 then
    ["Analysis complete. No specific flags found, but score is 0. Check for valid domain format."]
  else r1

/-- App.tsx line 185: `/google\.com|apple\.com|microsoft\.com|amazon\.com/i`
tested against `lowerHost`. -/
def isKnownSafeDomain (host : String) : Bool :=
  containsAnyCI (strToLower host) knownSafeList

/-- The HTTPS condition of `scoreUrl` (App.tsx lines 190-191):
`isHttps || (isKnownSafeDomain && !raw.startsWith("http://"))`. -/
def httpsOkCond (raw host : String) : Bool :=
  strStartsWith raw "https://" || (isKnownSafeDomain host && !(strStartsWith raw "http://"))

/-- The urgency-keyword condition of `scoreUrl` (App.tsx line 217):
keywords are checked against the lowercased host and the lowercased URL. -/
def suspiciousCond (raw host : String) : Bool :=
  hasUrgentKeywords (strToLower host) || hasUrgentKeywords (strToLower raw)

/-- The domain-age condition of `scoreUrl` (App.tsx lines 226-227):
`ageDays > 180`. -/
def establishedCond (host : String) : Bool :=
  decide (mockDomainAgeDays host > 180)

/-- The `breakdown` object `scoreUrl` builds (App.tsx lines 188-240). -/
def breakdownFor (raw host : String) : Breakdown :=
  mkBreakdown (httpsOkCond raw host) (mockHasValidSsl raw) (mockIsBlacklisted host)
    (isShortAndClean host) (suspiciousCond raw host) (establishedCond host)
    (mockHasExcessiveRedirects raw host)

/-- App.tsx line 242: `score = clamp(Math.round(score), 0, 10)`;
`Math.round` is the identity since the accumulated score is an integer. -/
def safetyFor (raw host : String) : Int :=
  clamp (scoreOf (breakdownFor raw host)) 0 10

/-- App.tsx lines 246-247: `confidence = clamp(positiveScore / 10)`. -/
def confidenceFor (raw host : String) : Rat :=
  clampQ ((positiveScore (breakdownFor raw host) : Rat) / 10)

/-- The body of App.tsx `scoreUrl` (lines 181-290) after
`const { host } = parseHost(raw)`, with the parsed host as a parameter and
the effectful `crypto.randomUUID()` / `new Date()` as parameters `id`/`ts`. -/
def scoreUrlCore (id : String) (ts : Int) (raw host : String) : ScanResult where
  id := id
  url := if strStartsWith raw "http" then raw else "https://" ++ raw
  safety := safetyFor raw host
  tier := tierOfScore (safetyFor raw host)
  color := colorOfScore (safetyFor raw host)
  confidence := confidenceFor raw host
  reasons := reasonsFor (breakdownFor raw host) (safetyFor raw host)
  breakdown := breakdownFor raw host
  timestamp := ts
  likes := some 0
  dislikes := some 0
  userReaction := none
  apiCheck := none

/-- App.tsx `scoreUrl` (lines 181-290): parse the host from the raw input
and run the scoring body. -/
def scoreUrl (id : String) (ts : Int) (raw : String) : ScanResult :=
  scoreUrlCore id ts raw (parseHostHost raw)

/-- The external reputation response consumed by `runExternalCheck`
(`{finalVerdict, summary, checks}`); `checks = none` is a JS
`undefined`/`null` checks field. -/
structure ExtResult where
  finalVerdict : String
  summary : String
  checks : Option (List (String × SubCheck))
deriving DecidableEq

/-- App.tsx `didAllApisFail` (lines 172-177): false when `checks` is absent
(falsy); otherwise `Object.values(checks).every(c => c.checked === false ||
c.status === "error")` — vacuously true on an empty checks object. -/
def didAllApisFail (checks : Option (List (String × SubCheck))) : Bool :=
  match checks with
  | none => false
  | some cs => cs.all (fun c => c.2.checked == some false || c.2.status == some "error")

/-- App.tsx `runExternalCheck` (lines 432-499) as a function of the current
`scan` state and the result of `realExternalLookup` (`none` models a fetch
failure or non-success HTTP status, in which case the handler records an
error message and returns without touching the scan). -/
def runExternalCheck (scan : ScanResult) (ext : Option ExtResult) : ScanResult :=
  match ext with
  | none => scan
  | some e =>
    let allFailed := didAllApisFail e.checks
    let finalSafety :=
      if e.finalVerdict = "malicious" then min scan.safety 1
      else if e.finalVerdict = "suspicious" then min scan.safety 4
      else scan.safety
    { scan with
      safety := finalSafety
      tier := tierOfRecon finalSafety
      color := colorOfRecon finalSafety
      apiCheck := some
        { done := true
          failed := allFailed
          note := if allFailed then "External API scan failed" else e.summary
          checks := e.checks.getD [] } }

/-- App.tsx `tierOrder` (lines 56-60) inside the primary-view `sortScans`. -/
def tierOrder : Tier → Int
  | .highRisk => 0
  | .beCareful => 1
  | .safe => 2

/-- App.tsx `sortScans` (lines 54-78), the primary-view comparator:
tier priority, then most-disliked first, then newest first. `timestamp`
is the numeric time the source obtains with `new Date(...).getTime()`. -/
def sortScans (a b : ScanResult) : Int :=
  if tierOrder a.tier ≠ tierOrder b.tier then tierOrder a.tier - tierOrder b.tier
  else if a.dislikes.getD 0 ≠ b.dislikes.getD 0 then b.dislikes.getD 0 - a.dislikes.getD 0
  else b.timestamp - a.timestamp

/-- Community.tsx `interface ScanResult` (lines 14-29), the fields its
`sortScans` reads; `tier` is a plain string there. -/
structure CScan where
  tier : String
  likes : Option Int
  dislikes : Option Int
  timestamp : Int
deriving DecidableEq

/-- Community.tsx `tierPriority` (lines 36-40) with the JS
`tierPriority[tier] || 0` fallback for unknown tier strings (lines 42). -/
def tierPriority (tier : String) : Int :=
  if tier = "High Risk" then 3
  else if tier = "Be Careful" then 2
  else if tier = "Safe" then 1
  else 0

/-- Community.tsx `sortScans` (lines 34-55): riskier tier first, then higher
dislikes, then higher likes, then newest first. -/
def communitySortScans (a b : CScan) : Int :=
  if tierPriority b.tier - tierPriority a.tier ≠ 0 then tierPriority b.tier - tierPriority a.tier
  else if (b.dislikes.getD 0) - (a.dislikes.getD 0) ≠ 0 then (b.dislikes.getD 0) - (a.dislikes.getD 0)
  else if (b.likes.getD 0) - (a.likes.getD 0) ≠ 0 then (b.likes.getD 0) - (a.likes.getD 0)
  else b.timestamp - a.timestamp

/-- Lexicographic `≤` on integer triples, the order the primary comparator
realizes on its sort keys. -/
def lexLe3 (a1 a2 a3 b1 b2 b3 : Int) : Prop :=
  a1 < b1 ∨ (a1 = b1 ∧ (a2 < b2 ∨ (a2 = b2 ∧ a3 ≤ b3)))

/-- Lexicographic `≤` on integer quadruples, the order the community
comparator realizes on its sort keys. -/
def lexLe4 (a1 a2 a3 a4 b1 b2 b3 b4 : Int) : Prop :=
  a1 < b1 ∨ (a1 = b1 ∧ (a2 < b2 ∨ (a2 = b2 ∧ (a3 < b3 ∨ (a3 = b3 ∧ a4 ≤ b4)))))

/-! ### Reaction counters

Model of the like/dislike state of one scan record in the Community view.
The Community reaction handlers update the `history/{id}` record with three
separate awaited `set` calls on the `likes`, `dislikes` and `userReaction`
children, so other clients can observe the record between those commits;
the `onValue` subscription on `history` (Community.tsx lines 103-112) fires
on every committed write and replaces each rendered row wholesale from the
snapshot (the callback reads only `snapshot`, no component state). The
`userReaction` child is a single field of the shared record, so every
viewer reads back the last reaction any viewer stored. Two clients viewing
the same record suffice. -/

/-- The `likes`, `dislikes` and `userReaction` fields of a `history/{id}`
record, which are also exactly the fields of a rendered Community row that
`handleLike`/`handleDislike` read (Community.tsx lines 14-29); `none` is a
JS `undefined` (or, for the reaction, `null`) field. -/
structure CRow where
  likes : Option Int
  dislikes : Option Int
  userReaction : Option Reaction
deriving DecidableEq

/-- One atomic event of a running reaction handler: one committed Firebase
`set` on a child of the record, or the final `setHistory` patch of the
local row that runs after the three awaited writes resolve. -/
inductive CWrite where
  | wLikes (v : Int)
  | wDislikes (v : Int)
  | wReaction (r : Option Reaction)
  | wLocal (row : CRow)
deriving DecidableEq

/-- The values `handleLike` computes from the clicked row (Community.tsx
lines 123-126): `(updatedLikes, updatedDislikes, newReaction)`. -/
def handleLikeVals (scan : CRow) : Int × Int × Option Reaction :=
  let newReaction : Option Reaction :=
    if scan.userReaction = some .like then none else some .like
  let updatedLikes :=
    if newReaction = some .like then scan.likes.getD 0 + 1 else scan.likes.getD 1 - 1
  let updatedDislikes :=
    if newReaction = some .like ∧ scan.userReaction = some .dislike then scan.dislikes.getD 1 - 1
    else scan.dislikes.getD 0
  (updatedLikes, updatedDislikes, newReaction)

/-- The event sequence `handleLike` performs, in source order: write
`likes`, write `dislikes`, write `userReaction` (three separate awaited
`set` calls, Community.tsx lines 129-131), then the local `setHistory`
patch (lines 134-140). -/
def handleLikeEvents (scan : CRow) : List CWrite :=
  let v := handleLikeVals scan
  [.wLikes v.1, .wDislikes v.2.1, .wReaction v.2.2, .wLocal ⟨some v.1, some v.2.1, v.2.2⟩]

/-- The values `handleDislike` computes from the clicked row (Community.tsx
lines 145-148): `(updatedLikes, updatedDislikes, newReaction)`. -/
def handleDislikeVals (scan : CRow) : Int × Int × Option Reaction :=
  let newReaction : Option Reaction :=
    if scan.userReaction = some .dislike then none else some .dislike
  let updatedDislikes :=
    if newReaction = some .dislike then scan.dislikes.getD 0 + 1 else scan.dislikes.getD 1 - 1
  let updatedLikes :=
    if newReaction = some .dislike ∧ scan.userReaction = some .like then scan.likes.getD 1 - 1
    else scan.likes.getD 0
  (updatedLikes, updatedDislikes, newReaction)

/-- The event sequence `handleDislike` performs, in source order: write
`dislikes`, write `likes`, write `userReaction` (Community.tsx lines
151-153), then the local `setHistory` patch (lines 156-162). -/
def handleDislikeEvents (scan : CRow) : List CWrite :=
  let v := handleDislikeVals scan
  [.wDislikes v.2.1, .wLikes v.1, .wReaction v.2.2, .wLocal ⟨some v.1, some v.2.1, v.2.2⟩]

/-- Apply one committed `set` to the `history/{id}` record; the local
`setHistory` patch does not touch the store. -/
def applyWrite (s : CRow) : CWrite → CRow
  | .wLikes v => { s with likes := some v }
  | .wDislikes v => { s with dislikes := some v }
  | .wReaction r => { s with userReaction := r }
  | .wLocal _ => s

/-- A Community client: its rendered row for the record and the tail of a
running reaction handler that has not committed yet. -/
structure CClient where
  row : CRow
  pending : List CWrite
deriving DecidableEq

/-- The shared `history/{id}` record plus the states of two clients viewing
it. -/
structure CWorld where
  store : CRow
  a : CClient
  b : CClient
deriving DecidableEq

/-- Scheduler events of the two-client system. A click starts a handler
(only when the client is idle — a restriction to a subset of the real
schedules); `next` commits the next pending event of a running handler
(each `await set` yields, and remote clients observe each commit as a
separate server state); `sync` delivers the `onValue` snapshot, replacing
the row wholesale from the store. -/
inductive CStep where
  | aClickLike
  | aClickDislike
  | aNext
  | aSync
  | bClickLike
  | bClickDislike
  | bNext
  | bSync
deriving DecidableEq

/-- Transition function of the two-client Community reaction system. -/
def cstep (w : CWorld) : CStep → CWorld
  | .aClickLike =>
    if w.a.pending.isEmpty then { w with a := { w.a with pending := handleLikeEvents w.a.row } }
    else w
  | .aClickDislike =>
    if w.a.pending.isEmpty then { w with a := { w.a with pending := handleDislikeEvents w.a.row } }
    else w
  | .aNext =>
    match w.a.pending with
    | [] => w
    | .wLocal row :: rest => { w with a := { row := row, pending := rest } }
    | e :: rest => { w with store := applyWrite w.store e, a := { w.a with pending := rest } }
  | .aSync => { w with a := { w.a with row := w.store } }
  | .bClickLike =>
    if w.b.pending.isEmpty then { w with b := { w.b with pending := handleLikeEvents w.b.row } }
    else w
  | .bClickDislike =>
    if w.b.pending.isEmpty then { w with b := { w.b with pending := handleDislikeEvents w.b.row } }
    else w
  | .bNext =>
    match w.b.pending with
    | [] => w
    | .wLocal row :: rest => { w with b := { row := row, pending := rest } }
    | e :: rest => { w with store := applyWrite w.store e, b := { w.b with pending := rest } }
  | .bSync => { w with b := { w.b with row := w.store } }

/-- Run a schedule. -/
def runCSteps (w : CWorld) (steps : List CStep) : CWorld := steps.foldl cstep w

/-- The state right after a URL is scanned: `saveScanToFirebase` pushes the
scan record to `history` with `likes: 0, dislikes: 0, userReaction: null`
(App.tsx lines 283-285 and 395-401), and both Community clients have synced
it. -/
def communityInit : CWorld :=
  { store := ⟨some 0, some 0, none⟩
    a := ⟨⟨some 0, some 0, none⟩, []⟩
    b := ⟨⟨some 0, some 0, none⟩, []⟩ }

/-- The schedule that drives the stored `dislikes` counter negative.
Client A dislikes the record (handler runs to completion). Client B syncs
and — the shared `userReaction` field makes the dislike of A read back as
its own — clicks like to toggle it off: the handler commits `likes = 1`,
then `dislikes = 0`, and yields before committing `userReaction = like`,
leaving the record at `(likes 1, dislikes 0, userReaction dislike)`.
Client A syncs exactly that intermediate record, clicks dislike to toggle
off, and its handler computes `updatedDislikes = (0 ?? 1) - 1 = -1`,
committing it first; both handlers then run to completion. -/
def communityNegativeTrace : List CStep :=
  [.aClickDislike, .aNext, .aNext, .aNext, .aNext,
   .bSync, .bClickLike, .bNext, .bNext,
   .aSync, .aClickDislike, .aNext,
   .aNext, .aNext, .aNext,
   .bNext, .bNext]

/-! ### Support lemmas -/

/-- Whatever the seven branch conditions, the sum of the strictly positive
breakdown entries is between 0 and 10. -/
theorem positiveScore_mkBreakdown_bounds :
    ∀ c1 c2 c3 c4 c5 c6 c7 : Bool,
      0 ≤ positiveScore (mkBreakdown c1 c2 c3 c4 c5 c6 c7)
        ∧ positiveScore (mkBreakdown c1 c2 c3 c4 c5 c6 c7) ≤ 10 := by
  decide

/-- Whatever the seven branch conditions, the breakdown keys are the fixed
seven in insertion order and each value lies in its two-element range. -/
theorem mkBreakdown_valueSets :
    ∀ c1 c2 c3 c4 c5 c6 c7 : Bool,
      (mkBreakdown c1 c2 c3 c4 c5 c6 c7).entries.map Prod.fst =
        ["https", "ssl", "blacklisted", "cleanDomain", "suspiciousKeywords", "domainAge", "redirects"]
      ∧ ((mkBreakdown c1 c2 c3 c4 c5 c6 c7).https = 0 ∨ (mkBreakdown c1 c2 c3 c4 c5 c6 c7).https = 2)
      ∧ ((mkBreakdown c1 c2 c3 c4 c5 c6 c7).ssl = 0 ∨ (mkBreakdown c1 c2 c3 c4 c5 c6 c7).ssl = 2)
      ∧ ((mkBreakdown c1 c2 c3 c4 c5 c6 c7).blacklisted = -2 ∨ (mkBreakdown c1 c2 c3 c4 c5 c6 c7).blacklisted = 2)
      ∧ ((mkBreakdown c1 c2 c3 c4 c5 c6 c7).cleanDomain = 0 ∨ (mkBreakdown c1 c2 c3 c4 c5 c6 c7).cleanDomain = 1)
      ∧ ((mkBreakdown c1 c2 c3 c4 c5 c6 c7).suspiciousKeywords = -1 ∨ (mkBreakdown c1 c2 c3 c4 c5 c6 c7).suspiciousKeywords = 1)
      ∧ ((mkBreakdown c1 c2 c3 c4 c5 c6 c7).domainAge = 0 ∨ (mkBreakdown c1 c2 c3 c4 c5 c6 c7).domainAge = 1)
      ∧ ((mkBreakdown c1 c2 c3 c4 c5 c6 c7).redirects = -1 ∨ (mkBreakdown c1 c2 c3 c4 c5 c6 c7).redirects = 1) := by
  decide

/-- The clamped safety score lies in [0, 10]. -/
theorem safetyFor_bounds (raw host : String) :
    0 ≤ safetyFor raw host ∧ safetyFor raw host ≤ 10 := by
  unfold safetyFor clamp
  omega

/-- The clamped confidence lies in [0, 1]. -/
theorem confidenceFor_bounds (raw host : String) :
    0 ≤ confidenceFor raw host ∧ confidenceFor raw host ≤ 1 := by
  have hb : 0 ≤ positiveScore (breakdownFor raw host)
      ∧ positiveScore (breakdownFor raw host) ≤ 10 :=
    positiveScore_mkBreakdown_bounds _ _ _ _ _ _ _
  unfold confidenceFor clampQ
  constructor
  · exact le_max_left _ _
  · refine max_le (by norm_num) ((min_le_right _ _).trans ?_)
    rw [div_le_one (by norm_num : (0 : Rat) < 10)]
    exact_mod_cast hb.2

end SafeLink

namespace SafeLink

/-! ### Claims -/

/-- C1: for every raw input string (and every generated id and timestamp),
the `ScanResult` produced by `scoreUrl` has `safety` in {0, ..., 10} — an
integer by construction, the type of `safety` being `Int` — and
`confidence` in [0, 1]. -/
theorem scoreUrl_safety_confidence_bounds :
    ∀ id ts raw,
      0 ≤ (scoreUrl id ts raw).safety ∧ (scoreUrl id ts raw).safety ≤ 10
        ∧ 0 ≤ (scoreUrl id ts raw).confidence ∧ (scoreUrl id ts raw).confidence ≤ 1 := by
  intro id ts raw
  have hs := safetyFor_bounds raw (parseHostHost raw)
  have hc := confidenceFor_bounds raw (parseHostHost raw)
  exact ⟨hs.1, hs.2, hc.1, hc.2⟩

/-- C10: for every raw input string, the breakdown of the `ScanResult`
produced by `scoreUrl` has exactly the seven keys `https, ssl, blacklisted,
cleanDomain, suspiciousKeywords, domainAge, redirects` (in insertion order),
each value confined to its two-element range, and the sum of the strictly
positive entries is at most 10. -/
theorem scoreUrl_breakdown_shape :
    ∀ id ts raw,
      (scoreUrl id ts raw).breakdown.entries.map Prod.fst =
        ["https", "ssl", "blacklisted", "cleanDomain", "suspiciousKeywords", "domainAge", "redirects"]
      ∧ ((scoreUrl id ts raw).breakdown.https = 0 ∨ (scoreUrl id ts raw).breakdown.https = 2)
      ∧ ((scoreUrl id ts raw).breakdown.ssl = 0 ∨ (scoreUrl id ts raw).breakdown.ssl = 2)
      ∧ ((scoreUrl id ts raw).breakdown.blacklisted = -2 ∨ (scoreUrl id ts raw).breakdown.blacklisted = 2)
      ∧ ((scoreUrl id ts raw).breakdown.cleanDomain = 0 ∨ (scoreUrl id ts raw).breakdown.cleanDomain = 1)
      ∧ ((scoreUrl id ts raw).breakdown.suspiciousKeywords = -1 ∨ (scoreUrl id ts raw).breakdown.suspiciousKeywords = 1)
      ∧ ((scoreUrl id ts raw).breakdown.domainAge = 0 ∨ (scoreUrl id ts raw).breakdown.domainAge = 1)
      ∧ ((scoreUrl id ts raw).breakdown.redirects = -1 ∨ (scoreUrl id ts raw).breakdown.redirects = 1)
      ∧ positiveScore (scoreUrl id ts raw).breakdown ≤ 10 := by
  intro id ts raw
  have hv := mkBreakdown_valueSets (httpsOkCond raw (parseHostHost raw))
    (mockHasValidSsl raw) (mockIsBlacklisted (parseHostHost raw))
    (isShortAndClean (parseHostHost raw)) (suspiciousCond raw (parseHostHost raw))
    (establishedCond (parseHostHost raw)) (mockHasExcessiveRedirects raw (parseHostHost raw))
  have hp := positiveScore_mkBreakdown_bounds (httpsOkCond raw (parseHostHost raw))
    (mockHasValidSsl raw) (mockIsBlacklisted (parseHostHost raw))
    (isShortAndClean (parseHostHost raw)) (suspiciousCond raw (parseHostHost raw))
    (establishedCond (parseHostHost raw)) (mockHasExcessiveRedirects raw (parseHostHost raw))
  exact ⟨hv.1, hv.2.1, hv.2.2.1, hv.2.2.2.1, hv.2.2.2.2.1, hv.2.2.2.2.2.1,
    hv.2.2.2.2.2.2.1, hv.2.2.2.2.2.2.2, hp.2⟩

/-- A mid-tier scan result (`safety = 5`) used as a concrete input. -/
def midScan : ScanResult where
  id := "m"
  url := "https://example-site.net"
  safety := 5
  tier := .beCareful
  color := "#f59e0b"
  confidence := 7 / 10
  reasons := []
  breakdown := mkBreakdown true true false false true true false
  timestamp := 100
  likes := some 0
  dislikes := some 0
  userReaction := none
  apiCheck := none

/-- A remote response whose verdict is `suspicious` and whose sub-checks
did not all fail. -/
def suspiciousExt : ExtResult where
  finalVerdict := "suspicious"
  summary := "flagged by one engine"
  checks := some [("engineA", { checked := some true, status := some "suspicious" })]

/-- A remote response whose sub-checks all failed and whose verdict is
`malicious`. -/
def allFailMalExt : ExtResult where
  finalVerdict := "malicious"
  summary := "partial"
  checks := some [("engineA", { checked := some false, status := none })]

/-- A remote response whose sub-checks all failed and whose verdict is
neither `malicious` nor `suspicious`. -/
def allFailCleanExt : ExtResult where
  finalVerdict := "clean"
  summary := "partial"
  checks := some [("engineA", { checked := some false, status := none }),
                  ("engineB", { checked := none, status := some "error" })]

/-- The `apiCheck` value the spec predicts for a failed external call. -/
def specFailedApiCheck : ApiCheck where
  done := true
  note := "External API scan failed"
  checks := []
  failed := true

/-- C2: for every prior scan with safety in [0, 10] and every remote verdict
response, `runExternalCheck` never increases safety: a `malicious` verdict
yields `min(safety, 1)`, a `suspicious` verdict yields `min(safety, 4)`, and
any other verdict leaves safety unchanged. -/
theorem runExternalCheck_monotone :
    ∀ (scan : ScanResult) (e : ExtResult), 0 ≤ scan.safety → scan.safety ≤ 10 →
      (runExternalCheck scan (some e)).safety ≤ scan.safety
      ∧ (e.finalVerdict = "malicious" →
          (runExternalCheck scan (some e)).safety = min scan.safety 1)
      ∧ (e.finalVerdict = "suspicious" →
          (runExternalCheck scan (some e)).safety = min scan.safety 4)
      ∧ (e.finalVerdict ≠ "malicious" → e.finalVerdict ≠ "suspicious" →
          (runExternalCheck scan (some e)).safety = scan.safety) := by
  intro scan e h0 h10
  have hsafety : (runExternalCheck scan (some e)).safety =
      if e.finalVerdict = "malicious" then min scan.safety 1
      else if e.finalVerdict = "suspicious" then min scan.safety 4
      else scan.safety := rfl
  rw [hsafety]
  split_ifs with hm hs
  · exact ⟨min_le_left _ _, fun _ => rfl, fun h => absurd hm (by simp [h]), fun h _ => absurd hm h⟩
  · exact ⟨min_le_left _ _, fun h => absurd hs (by simp [h]), fun _ => rfl, fun _ h => absurd hs h⟩
  · exact ⟨le_refl _, fun h => absurd h hm, fun h => absurd h hs, fun _ _ => rfl⟩

/-- C2 witness: `runExternalCheck_monotone` at the concrete mid-tier scan
and the `suspicious` response. -/
theorem runExternalCheck_monotone_witness :
    (runExternalCheck midScan (some suspiciousExt)).safety ≤ midScan.safety
    ∧ (runExternalCheck midScan (some suspiciousExt)).safety = min midScan.safety 4 := by
  have h := runExternalCheck_monotone midScan suspiciousExt (by decide) (by decide)
  exact ⟨h.1, h.2.2.1 (by decide)⟩

/-- C3 counterexample: on a network error / non-success status
(`realExternalLookup` returning null) the handler returns early, leaving
`apiCheck` as it was (`none`) instead of writing the predicted failure
record; and on an all-sub-checks-failed response the stored `checks` is the
checks object of the response (non-empty here) rather than `{}`, while a
`malicious` verdict still lowers `safety`. -/
theorem runExternalCheck_failure_counterexample :
    ((runExternalCheck midScan none).apiCheck = none
      ∧ (runExternalCheck midScan none).apiCheck ≠ some specFailedApiCheck)
    ∧ (didAllApisFail allFailMalExt.checks = true
      ∧ (runExternalCheck midScan (some allFailMalExt)).safety ≠ midScan.safety
      ∧ (runExternalCheck midScan (some allFailMalExt)).apiCheck ≠ some specFailedApiCheck) := by
  decide

/-- C3 (amended): a network error or non-success status leaves the scan
entirely unchanged (`apiCheck` is not written); an all-sub-checks-failed
response sets `apiCheck = {done: true, failed: true, note: "External API
scan failed", checks: the checks of the response (or {} when absent)}`, and
leaves `safety` unchanged provided the verdict is neither `malicious` nor
`suspicious`. -/
theorem runExternalCheck_failure_handling :
    ∀ (scan : ScanResult) (e : ExtResult),
      runExternalCheck scan none = scan
      ∧ (didAllApisFail e.checks = true →
          (runExternalCheck scan (some e)).apiCheck =
            some { done := true, note := "External API scan failed",
                   checks := e.checks.getD [], failed := true }
          ∧ (e.finalVerdict ≠ "malicious" → e.finalVerdict ≠ "suspicious" →
              (runExternalCheck scan (some e)).safety = scan.safety)) := by
  intro scan e
  refine ⟨rfl, fun hf => ⟨?_, fun h1 h2 => ?_⟩⟩
  · have hapi : (runExternalCheck scan (some e)).apiCheck =
        some { done := true
               note := if didAllApisFail e.checks then "External API scan failed" else e.summary
               checks := e.checks.getD []
               failed := didAllApisFail e.checks } := rfl
    rw [hapi, hf]
    simp
  · have hsafety : (runExternalCheck scan (some e)).safety =
        if e.finalVerdict = "malicious" then min scan.safety 1
        else if e.finalVerdict = "suspicious" then min scan.safety 4
        else scan.safety := rfl
    rw [hsafety, if_neg h1, if_neg h2]

/-- C3 witness: `runExternalCheck_failure_handling` at the mid-tier scan and
the all-failed `clean`-verdict response. -/
theorem runExternalCheck_failure_handling_witness :
    (runExternalCheck midScan (some allFailCleanExt)).apiCheck =
      some { done := true, note := "External API scan failed",
             checks := allFailCleanExt.checks.getD [], failed := true }
    ∧ (runExternalCheck midScan (some allFailCleanExt)).safety = midScan.safety := by
  have h := (runExternalCheck_failure_handling midScan allFailCleanExt).2 (by decide)
  exact ⟨h.1, h.2 (by decide) (by decide)⟩

/-- C5: the tier classification is the same pure step function of safety in
the Scoring Engine and in the Reconciler (colors included): safety ≤ 3 maps
to High Risk, 3 < safety ≤ 6 to Be Careful, safety > 6 to Safe, with the
specific values at 0, 3, 4, 6, 7, 10 as claimed. -/
theorem tier_classification_step_function :
    ∀ s : Int, 0 ≤ s → s ≤ 10 →
      tierOfScore s = tierOfRecon s
      ∧ colorOfScore s = colorOfRecon s
      ∧ (s ≤ 3 → tierOfScore s = .highRisk)
      ∧ (3 < s → s ≤ 6 → tierOfScore s = .beCareful)
      ∧ (6 < s → tierOfScore s = .safe)
      ∧ tierOfScore 0 = .highRisk ∧ tierOfScore 3 = .highRisk
      ∧ tierOfScore 4 = .beCareful ∧ tierOfScore 6 = .beCareful
      ∧ tierOfScore 7 = .safe ∧ tierOfScore 10 = .safe := by
  intro s h0 h10
  refine ⟨rfl, rfl, ?_, ?_, ?_, by decide, by decide, by decide, by decide, by decide, by decide⟩
  · intro h
    unfold tierOfScore
    rw [if_pos h]
  · intro h1 h2
    unfold tierOfScore
    rw [if_neg (by omega), if_pos h2]
  · intro h
    unfold tierOfScore
    rw [if_neg (by omega), if_neg (by omega)]

/-- C5 witness: the step function evaluated through
`tier_classification_step_function` at safety 5. -/
theorem tier_classification_witness : tierOfScore 5 = Tier.beCareful := by
  exact (tier_classification_step_function 5 (by decide) (by decide)).2.2.2.1 (by decide) (by decide)

/-- C6 counterexample: a mid-tier scan (safety 5) reconciled with a
`suspicious` verdict — a verdict other than `malicious` — does not leave
safety unchanged: it drops to `min(5, 4) = 4`. -/
theorem midtier_other_verdict_counterexample :
    (4 ≤ midScan.safety ∧ midScan.safety ≤ 6
      ∧ suspiciousExt.finalVerdict ≠ "malicious")
    ∧ (runExternalCheck midScan (some suspiciousExt)).safety ≠ midScan.safety := by
  decide

/-- C6 (amended): for a mid-tier scan (4 ≤ safety ≤ 6), a `malicious`
verdict yields `safety = min(old, 1)` and tier High Risk, a `suspicious`
verdict yields `safety = min(old, 4)`, and a verdict other than both leaves
safety unchanged. -/
theorem midtier_reconciliation :
    ∀ (scan : ScanResult) (e : ExtResult), 4 ≤ scan.safety → scan.safety ≤ 6 →
      (e.finalVerdict = "malicious" →
        (runExternalCheck scan (some e)).safety = min scan.safety 1
        ∧ (runExternalCheck scan (some e)).tier = .highRisk)
      ∧ (e.finalVerdict = "suspicious" →
          (runExternalCheck scan (some e)).safety = min scan.safety 4)
      ∧ (e.finalVerdict ≠ "malicious" → e.finalVerdict ≠ "suspicious" →
          (runExternalCheck scan (some e)).safety = scan.safety) := by
  intro scan e h4 h6
  have hsafety : (runExternalCheck scan (some e)).safety =
      if e.finalVerdict = "malicious" then min scan.safety 1
      else if e.finalVerdict = "suspicious" then min scan.safety 4
      else scan.safety := rfl
  have htier : (runExternalCheck scan (some e)).tier =
      tierOfRecon (if e.finalVerdict = "malicious" then min scan.safety 1
        else if e.finalVerdict = "suspicious" then min scan.safety 4
        else scan.safety) := rfl
  refine ⟨fun hm => ⟨?_, ?_⟩, fun hs => ?_, fun h1 h2 => ?_⟩
  · rw [hsafety, if_pos hm]
  · rw [htier, if_pos hm]
    have hmin : min scan.safety 1 = 1 := by omega
    rw [hmin]
    decide
  · rw [hsafety]
    have hm : e.finalVerdict ≠ "malicious" := by
      intro h
      rw [h] at hs
      simp at hs
    rw [if_neg hm, if_pos hs]
  · rw [hsafety, if_neg h1, if_neg h2]

/-- C6 witness: `midtier_reconciliation` at the mid-tier scan and the
all-failed `malicious` response. -/
theorem midtier_reconciliation_witness :
    (runExternalCheck midScan (some allFailMalExt)).safety = min midScan.safety 1
    ∧ (runExternalCheck midScan (some allFailMalExt)).tier = Tier.highRisk := by
  exact (midtier_reconciliation midScan allFailMalExt (by decide) (by decide)).1 (by decide)

/-- The primary comparator compares the lexicographic keys
(tier order, dislikes descending, timestamp descending). -/
theorem sortScans_le_iff (a b : ScanResult) :
    sortScans a b ≤ 0 ↔
      lexLe3 (tierOrder a.tier) (-(a.dislikes.getD 0)) (-a.timestamp)
             (tierOrder b.tier) (-(b.dislikes.getD 0)) (-b.timestamp) := by
  unfold sortScans lexLe3
  split_ifs <;> omega

/-- The primary comparator returns 0 exactly on equal sort keys. -/
theorem sortScans_eq_zero_iff (a b : ScanResult) :
    sortScans a b = 0 ↔
      (tierOrder a.tier = tierOrder b.tier
        ∧ a.dislikes.getD 0 = b.dislikes.getD 0 ∧ a.timestamp = b.timestamp) := by
  unfold sortScans
  split_ifs <;> omega

/-- The primary comparator is antisymmetric as a numeric comparator. -/
theorem sortScans_antisymm (a b : ScanResult) : sortScans b a = -sortScans a b := by
  unfold sortScans
  split_ifs <;> omega

/-- The community comparator compares the lexicographic keys
(tier priority descending, dislikes descending, likes descending,
timestamp descending). -/
theorem communitySortScans_le_iff (a b : CScan) :
    communitySortScans a b ≤ 0 ↔
      lexLe4 (-(tierPriority a.tier)) (-(a.dislikes.getD 0)) (-(a.likes.getD 0)) (-a.timestamp)
             (-(tierPriority b.tier)) (-(b.dislikes.getD 0)) (-(b.likes.getD 0)) (-b.timestamp) := by
  unfold communitySortScans lexLe4
  split_ifs <;> omega

/-- The community comparator returns 0 exactly on equal sort keys. -/
theorem communitySortScans_eq_zero_iff (a b : CScan) :
    communitySortScans a b = 0 ↔
      (tierPriority a.tier = tierPriority b.tier
        ∧ a.dislikes.getD 0 = b.dislikes.getD 0
        ∧ a.likes.getD 0 = b.likes.getD 0 ∧ a.timestamp = b.timestamp) := by
  unfold communitySortScans
  split_ifs <;> omega

/-- The community comparator is antisymmetric as a numeric comparator. -/
theorem communitySortScans_antisymm (a b : CScan) :
    communitySortScans b a = -communitySortScans a b := by
  unfold communitySortScans
  split_ifs <;> omega

/-- C7: both ranking comparators realize a total order with riskiest first:
the primary view orders by tier (High Risk before Be Careful before Safe),
then dislikes descending, then timestamp descending; the community view by
tier priority (riskiest first), then dislikes descending, then likes
descending, then timestamp descending. Each comparator is antisymmetric,
total and transitive, and ties in the earlier keys are resolved by the
timestamp fallback: the comparator returns 0 exactly when all sort keys,
timestamp included, coincide. -/
theorem ranking_comparators_total_order :
    ∀ a b c : ScanResult, ∀ x y z : CScan,
      (sortScans a b ≤ 0 ↔
        lexLe3 (tierOrder a.tier) (-(a.dislikes.getD 0)) (-a.timestamp)
               (tierOrder b.tier) (-(b.dislikes.getD 0)) (-b.timestamp))
      ∧ (sortScans a b = 0 ↔
          (tierOrder a.tier = tierOrder b.tier
            ∧ a.dislikes.getD 0 = b.dislikes.getD 0 ∧ a.timestamp = b.timestamp))
      ∧ sortScans b a = -sortScans a b
      ∧ (sortScans a b ≤ 0 ∨ sortScans b a ≤ 0)
      ∧ (sortScans a b ≤ 0 → sortScans b c ≤ 0 → sortScans a c ≤ 0)
      ∧ (communitySortScans x y ≤ 0 ↔
          lexLe4 (-(tierPriority x.tier)) (-(x.dislikes.getD 0)) (-(x.likes.getD 0)) (-x.timestamp)
                 (-(tierPriority y.tier)) (-(y.dislikes.getD 0)) (-(y.likes.getD 0)) (-y.timestamp))
      ∧ (communitySortScans x y = 0 ↔
          (tierPriority x.tier = tierPriority y.tier
            ∧ x.dislikes.getD 0 = y.dislikes.getD 0
            ∧ x.likes.getD 0 = y.likes.getD 0 ∧ x.timestamp = y.timestamp))
      ∧ communitySortScans y x = -communitySortScans x y
      ∧ (communitySortScans x y ≤ 0 ∨ communitySortScans y x ≤ 0)
      ∧ (communitySortScans x y ≤ 0 → communitySortScans y z ≤ 0 → communitySortScans x z ≤ 0)
      ∧ (tierOrder .highRisk < tierOrder .beCareful ∧ tierOrder .beCareful < tierOrder .safe)
      ∧ (tierPriority "Be Careful" < tierPriority "High Risk"
          ∧ tierPriority "Safe" < tierPriority "Be Careful") := by
  intro a b c x y z
  refine ⟨sortScans_le_iff a b, sortScans_eq_zero_iff a b, sortScans_antisymm a b, ?_, ?_,
    communitySortScans_le_iff x y, communitySortScans_eq_zero_iff x y,
    communitySortScans_antisymm x y, ?_, ?_, by decide, by decide⟩
  · have h := sortScans_antisymm a b
    omega
  · intro h1 h2
    rw [sortScans_le_iff] at h1 h2 ⊢
    unfold lexLe3 at h1 h2 ⊢
    omega
  · have h := communitySortScans_antisymm x y
    omega
  · intro h1 h2
    rw [communitySortScans_le_iff] at h1 h2 ⊢
    unfold lexLe4 at h1 h2 ⊢
    omega

/-- A High Risk scan result for the ranking example. -/
def riskScan : ScanResult := { midScan with tier := Tier.highRisk, dislikes := some 3 }

/-- A Be Careful scan result for the ranking example. -/
def carefulScan : ScanResult := { midScan with tier := Tier.beCareful, timestamp := 90 }

/-- A Safe scan result for the ranking example. -/
def safeRankedScan : ScanResult := { midScan with tier := Tier.safe, dislikes := some 7 }

/-- Community-view records for the ranking example. -/
def cRisk : CScan := { tier := "High Risk", likes := some 1, dislikes := some 0, timestamp := 10 }

/-- Community-view mid-tier record for the ranking example. -/
def cCareful : CScan := { tier := "Be Careful", likes := some 5, dislikes := some 9, timestamp := 20 }

/-- Community-view safe record for the ranking example. -/
def cSafe : CScan := { tier := "Safe", likes := none, dislikes := some 9, timestamp := 30 }

/-- C7 witness: transitivity of both comparators applied at the concrete
three-tier examples, placing High Risk before Safe. -/
theorem ranking_comparators_witness :
    sortScans riskScan safeRankedScan ≤ 0 ∧ communitySortScans cRisk cSafe ≤ 0 := by
  obtain ⟨-, -, -, -, htrans, -, -, -, -, hctrans, -, -⟩ :=
    ranking_comparators_total_order riskScan carefulScan safeRankedScan cRisk cCareful cSafe
  exact ⟨htrans (by decide) (by decide), hctrans (by decide) (by decide)⟩

/-- C8: for the input `http://badsite-login.com/verify-account` the scoring
engine clamps the negative total at 0, classifies High Risk, and the reasons
include the blacklist, suspicious-keyword and missing-HTTPS cautions. -/
theorem badsite_login_example :
    ∀ id ts,
      (scoreUrl id ts "http://badsite-login.com/verify-account").safety = 0
      ∧ (scoreUrl id ts "http://badsite-login.com/verify-account").tier = .highRisk
      ∧ "Domain is flagged on threat lists."
          ∈ (scoreUrl id ts "http://badsite-login.com/verify-account").reasons
      ∧ "URL contains suspicious, urgent keywords."
          ∈ (scoreUrl id ts "http://badsite-login.com/verify-account").reasons
      ∧ "Missing HTTPS for a secure connection."
          ∈ (scoreUrl id ts "http://badsite-login.com/verify-account").reasons := by
  intro id ts
  refine ⟨?_, ?_, ?_, ?_, ?_⟩
  · show safetyFor "http://badsite-login.com/verify-account"
        (parseHostHost "http://badsite-login.com/verify-account") = 0
    decide
  · show tierOfScore (safetyFor "http://badsite-login.com/verify-account"
        (parseHostHost "http://badsite-login.com/verify-account")) = .highRisk
    decide
  · show _ ∈ reasonsFor (breakdownFor "http://badsite-login.com/verify-account"
        (parseHostHost "http://badsite-login.com/verify-account"))
        (safetyFor "http://badsite-login.com/verify-account"
          (parseHostHost "http://badsite-login.com/verify-account"))
    decide
  · show _ ∈ reasonsFor (breakdownFor "http://badsite-login.com/verify-account"
        (parseHostHost "http://badsite-login.com/verify-account"))
        (safetyFor "http://badsite-login.com/verify-account"
          (parseHostHost "http://badsite-login.com/verify-account"))
    decide
  · show _ ∈ reasonsFor (breakdownFor "http://badsite-login.com/verify-account"
        (parseHostHost "http://badsite-login.com/verify-account"))
        (safetyFor "http://badsite-login.com/verify-account"
          (parseHostHost "http://badsite-login.com/verify-account"))
    decide

/-- C9: the non-negativity claim fails on the code. The Community reaction
handlers commit their three Firebase writes separately, so a second client
can observe the record of a scan between the `dislikes` and `userReaction`
commits of a like that cancels a dislike — the record then reads
`(likes 1, dislikes 0, userReaction dislike)`. A client that syncs this
intermediate record and toggles the dislike off computes
`(scan.dislikes ?? 1) - 1 = (0) - 1 = -1`, stores it in
`history/{id}/dislikes`, and after its local patch displays `-1`. The
schedule below starts from zero counters and uses only the Community.tsx
handlers and its wholesale `onValue` sync. -/
theorem dislikes_counter_goes_negative :
    (runCSteps communityInit communityNegativeTrace).store.dislikes = some (-1)
    ∧ (runCSteps communityInit communityNegativeTrace).a.row.dislikes = some (-1) := by
  decide

end SafeLink
